import Mathlib

/-!
Verification of the MT5 trading bridge (perfecttraders/backend).

Shallow embedding of `src/mt5_engine.py`, `src/main.py` and the trade table of
`src/database.py`. The remote MetaTrader5 module is modelled as an oracle
(`MT5World`); each remote call performed by the code is recorded as an event,
so that claims about which remote calls happen on which paths are statements
about the event trace. Each distinct raise site of `MT5EngineError` in the
source becomes one constructor of `MT5Error`, carrying exactly the data the
corresponding f-string interpolates.
-/

/-- Constants of the MetaTrader5 package used by the source. -/
def TRADE_RETCODE_DONE : Int := 10009

def ORDER_TYPE_BUY : Int := 0

def ORDER_TYPE_SELL : Int := 1

def TRADE_ACTION_DEAL : Int := 1

def ORDER_TIME_GTC : Int := 0

def ORDER_FILLING_IOC : Int := 1

deriving instance DecidableEq for Except

/-- Python str.upper, on the ASCII range the source uses. -/
def pyUpper (s : String) : String := String.mk (s.data.map Char.toUpper)

/-- Python str.lower, on the ASCII range the source uses. -/
def pyLower (s : String) : String := String.mk (s.data.map Char.toLower)

/-- Whitespace characters removed by Python str.strip. -/
def pySpace (c : Char) : Bool :=
  c == ' ' || c == '\t' || c == '\n' || c == '\r' || c == '\x0b' || c == '\x0c'

/-- Python str.strip: drop whitespace from both ends. -/
def pyStrip (s : String) : String :=
  String.mk (((s.data.dropWhile pySpace).reverse.dropWhile pySpace).reverse)

/-- A venue tick as returned by mt5.symbol_info_tick. -/
structure Tick where
  bid : Rat
  ask : Rat
  time : Int
deriving DecidableEq, Repr

/-- The acknowledgement object returned by mt5.order_send. -/
structure OrderAck where
  retcode : Int
  order : Int
  deal : Int
  price : Rat
  volume : Rat
  comment : String
deriving DecidableEq, Repr

/-- The request dict built in send_market_order (mt5_engine.py lines 139-150). -/
structure MarketRequest where
  action : Int
  symbol : String
  volume : Rat
  type : Int
  price : Rat
  deviation : Int
  magic : Int
  comment : String
  type_time : Int
  type_filling : Int
deriving DecidableEq, Repr

/-- Oracle for the remote MetaTrader5 module: whether the package is importable,
whether mt5.initialize succeeds, the current mt5.last_error pair, and the
responses of symbol_select, symbol_info_tick and order_send. -/
structure MT5World where
  available : Bool
  initOk : Bool
  lastErrCode : Int
  lastErrMsg : String
  selectOk : String → Bool
  tick : String → Option Tick
  orderResult : MarketRequest → Option OrderAck

/-- Remote calls made by the engine, in order. -/
inductive MT5Event where
  | initCall : MT5Event
  | shutdownCall : MT5Event
  | selectCall (symbol : String) : MT5Event
  | tickCall (symbol : String) : MT5Event
  | orderSendCall (request : MarketRequest) : MT5Event
deriving DecidableEq, Repr

/-- One constructor per raise site of MT5EngineError in mt5_engine.py, carrying
the data interpolated into the message at that site. -/
inductive MT5Error where
  | notInstalled : MT5Error
  | initFailed (code : Int) (msg : String) : MT5Error
  | missingCredentials : MT5Error
  | selectFailed (symbol : String) (code : Int) (msg : String) : MT5Error
  | tickFailed (symbol : String) (code : Int) (msg : String) : MT5Error
  | invalidOrderType : MT5Error
  | orderSendNone (code : Int) (msg : String) : MT5Error
  | orderRejected (retcode : Int) (comment : String) (code : Int) (msg : String) : MT5Error
deriving DecidableEq, Repr

/-- TickPrice dataclass (mt5_engine.py lines 32-37). -/
structure TickPrice where
  symbol : String
  bid : Rat
  ask : Rat
  time : Int
deriving DecidableEq, Repr

/-- The response dict of send_market_order (mt5_engine.py lines 166-174). -/
structure MT5Response where
  ticket : Int
  deal : Int
  retcode : Int
  price : Rat
  volume : Rat
  symbol : String
  type : String
deriving DecidableEq, Repr

/-- MT5Engine.connect (mt5_engine.py lines 67-79): raises notInstalled when the
package is absent (before any remote call), otherwise performs mt5.initialize
and raises initFailed with mt5.last_error when it reports failure. Note that
the failure path performs no shutdown. -/
def connect (w : MT5World) : Except MT5Error Unit × List MT5Event :=
  if !w.available then (.error .notInstalled, [])
  else if !w.initOk then (.error (.initFailed w.lastErrCode w.lastErrMsg), [.initCall])
  else (.ok (), [.initCall])

/-- MT5Engine.get_price (mt5_engine.py lines 87-106): connect, normalize the
symbol, select it, fetch the tick, shutdown, return the TickPrice; each
failure after a successful connect shuts down before raising. -/
def get_price (w : MT5World) (symbol0 : String) :
    Except MT5Error TickPrice × List MT5Event :=
  match connect w with
  | (.error e, ev) => (.error e, ev)
  | (.ok _, ev) =>
    let symbol := pyStrip (pyUpper symbol0)
    if !w.selectOk symbol then
      (.error (.selectFailed symbol w.lastErrCode w.lastErrMsg),
        ev ++ [.selectCall symbol, .shutdownCall])
    else
      match w.tick symbol with
      | none =>
        (.error (.tickFailed symbol w.lastErrCode w.lastErrMsg),
          ev ++ [.selectCall symbol, .tickCall symbol, .shutdownCall])
      | some t =>
        (.ok { symbol := symbol, bid := t.bid, ask := t.ask, time := t.time },
          ev ++ [.selectCall symbol, .tickCall symbol, .shutdownCall])

/-- MT5Engine.send_market_order (mt5_engine.py lines 108-177): connect first,
then normalize symbol and side, validate the side, select the symbol, fetch the
tick, derive the price (ask for buy, bid for sell), build the market request,
submit it, check the retcode against TRADE_RETCODE_DONE, and return the
response dict; every failure after a successful connect shuts down first. -/
def send_market_order (w : MT5World) (symbol0 : String) (volume : Rat)
    (order_type0 : String) (comment : String) :
    Except MT5Error MT5Response × List MT5Event :=
  match connect w with
  | (.error e, ev) => (.error e, ev)
  | (.ok _, ev) =>
    let symbol := pyStrip (pyUpper symbol0)
    let order_type := pyStrip (pyLower order_type0)
    if !(order_type = "buy" || order_type = "sell") then
      (.error .invalidOrderType, ev ++ [.shutdownCall])
    else if !w.selectOk symbol then
      (.error (.selectFailed symbol w.lastErrCode w.lastErrMsg),
        ev ++ [.selectCall symbol, .shutdownCall])
    else
      match w.tick symbol with
      | none =>
        (.error (.tickFailed symbol w.lastErrCode w.lastErrMsg),
          ev ++ [.selectCall symbol, .tickCall symbol, .shutdownCall])
      | some t =>
        let mt5_type := if order_type = "buy" then ORDER_TYPE_BUY else ORDER_TYPE_SELL
        let price := if order_type = "buy" then t.ask else t.bid
        let request : MarketRequest :=
          { action := TRADE_ACTION_DEAL, symbol := symbol, volume := volume,
            type := mt5_type, price := price, deviation := 20, magic := 202601,
            comment := comment, type_time := ORDER_TIME_GTC,
            type_filling := ORDER_FILLING_IOC }
        match w.orderResult request with
        | none =>
          (.error (.orderSendNone w.lastErrCode w.lastErrMsg),
            ev ++ [.selectCall symbol, .tickCall symbol,
              .orderSendCall request, .shutdownCall])
        | some r =>
          if r.retcode ≠ TRADE_RETCODE_DONE then
            (.error (.orderRejected r.retcode r.comment w.lastErrCode w.lastErrMsg),
              ev ++ [.selectCall symbol, .tickCall symbol,
                .orderSendCall request, .shutdownCall])
          else
            (.ok { ticket := r.order, deal := r.deal, retcode := r.retcode,
                   price := r.price, volume := r.volume, symbol := symbol,
                   type := order_type },
              ev ++ [.selectCall symbol, .tickCall symbol,
                .orderSendCall request, .shutdownCall])

/-- The process environment variables read by MT5Engine; none means the
variable is unset, in which case os.getenv substitutes the empty string. -/
structure Env where
  mt5Login : Option String
  mt5Password : Option String
  mt5Server : Option String

/-- The attributes of the single MT5Engine object: the _initialized flag set by
new and flipped by a successful init, and the credential attributes. -/
structure EngineObj where
  initFlag : Bool
  login : String
  password : String
  server : String
deriving DecidableEq, Repr

/-- Class-level state of MT5Engine: how many objects were ever allocated, and
the _instance slot holding the singleton object and its allocation id. -/
structure ClassState where
  instCount : Nat
  inst : Option (Nat × EngineObj)
deriving DecidableEq, Repr

/-- MT5Engine.new (mt5_engine.py lines 46-52): return the existing instance if
the slot is filled, otherwise allocate a fresh object with _initialized False
and store it (the double-checked lock collapses to this sequentially). -/
def MT5Engine.new (s : ClassState) : ClassState × Nat × EngineObj :=
  match s.inst with
  | some (i, obj) => (s, i, obj)
  | none =>
    let obj : EngineObj := { initFlag := false, login := "", password := "", server := "" }
    ({ instCount := s.instCount + 1, inst := some (s.instCount, obj) }, s.instCount, obj)

/-- MT5Engine.init (mt5_engine.py lines 54-65): return unchanged when already
marked, otherwise read and strip the three environment variables, store them
on the object, and fail with missingCredentials when any is empty; only a
successful run sets the flag. -/
def MT5Engine.init (env : Env) (obj : EngineObj) : EngineObj × Except MT5Error Unit :=
  if obj.initFlag then (obj, .ok ())
  else
    let login := pyStrip (env.mt5Login.getD "")
    let password := pyStrip (env.mt5Password.getD "")
    let server := pyStrip (env.mt5Server.getD "")
    if login = "" ∨ password = "" ∨ server = "" then
      ({ obj with login := login, password := password, server := server },
        .error .missingCredentials)
    else
      ({ initFlag := true, login := login, password := password,
         server := server }, .ok ())

/-- The Python expression MT5Engine(): new followed by init on the returned
object; on success the caller receives the instance (identified by its
allocation id), on failure the exception propagates but the class slot keeps
the unmarked object. -/
def MT5Engine.construct (env : Env) (s : ClassState) :
    ClassState × Except MT5Error Nat :=
  let sn := MT5Engine.new s
  let ir := MT5Engine.init env sn.2.2
  ({ sn.1 with inst := some (sn.2.1, ir.1) },
    match ir.2 with
    | .ok _ => .ok sn.2.1
    | .error e => .error e)

/-- Some credential variable is unset or blank after stripping. -/
def Env.incomplete (env : Env) : Prop :=
  pyStrip (env.mt5Login.getD "") = "" ∨ pyStrip (env.mt5Password.getD "") = "" ∨
    pyStrip (env.mt5Server.getD "") = ""

/-- Every successfully initialized instance in the slot holds nonempty
credentials. -/
def ClassState.credsOk (s : ClassState) : Prop :=
  ∀ i obj, s.inst = some (i, obj) → obj.initFlag = true →
    obj.login ≠ "" ∧ obj.password ≠ "" ∧ obj.server ≠ ""

/-- A row of the trades table (database.py lines 46-56); ticket_id carries a
unique constraint in the schema. -/
structure TradeRow where
  id : Int
  account_id : Int
  ticket_id : String
  symbol : String
  volume : Rat
  type : String
  open_price : Rat
  status : String
deriving DecidableEq, Repr

/-- A row of the accounts table, restricted to the columns open_trade reads. -/
structure AccountRow where
  id : Int
  user_id : Int
deriving DecidableEq, Repr

/-- The trades table together with the next autoincrement primary key. -/
structure DB where
  trades : List TradeRow
  nextId : Int
deriving DecidableEq, Repr

/-- Failures of db.add + db.commit: the layer being unreachable, or the unique
constraint on trades.ticket_id rejecting the insert. -/
inductive DBError where
  | unavailable : DBError
  | uniqueViolation : DBError
deriving DecidableEq, Repr

/-- Inserting a trade row: fails when the persistence layer is down, or when
the unique constraint on ticket_id is violated; otherwise appends the row
under a fresh primary key. -/
def DB.insertTrade (db : DB) (dbUp : Bool) (account_id : Int)
    (ticket_id symbol : String) (volume : Rat) (ty : String)
    (open_price : Rat) (status : String) : Except DBError (DB × TradeRow) :=
  if !dbUp then .error .unavailable
  else if db.trades.any (fun t => t.ticket_id = ticket_id) then
    .error .uniqueViolation
  else
    let row : TradeRow :=
      { id := db.nextId, account_id := account_id, ticket_id := ticket_id,
        symbol := symbol, volume := volume, type := ty,
        open_price := open_price, status := status }
    .ok ({ trades := db.trades ++ [row], nextId := db.nextId + 1 }, row)

/-- No two rows of the trades table share a ticket_id (the unique constraint
of database.py line 51). -/
def DB.uniqueTickets (db : DB) : Prop :=
  db.trades.Pairwise (fun a b => a.ticket_id ≠ b.ticket_id)

/-- OpenTradeRequest (main.py lines 49-54), after pydantic validation. -/
structure OpenTradeRequest where
  account_id : Int
  symbol : String
  volume : Rat
  type : String
deriving DecidableEq, Repr

/-- The pydantic field constraints of OpenTradeRequest: symbol length in
[2,20], volume strictly positive, type exactly buy or sell. -/
def OpenTradeRequest.valid (p : OpenTradeRequest) : Prop :=
  2 ≤ p.symbol.length ∧ p.symbol.length ≤ 20 ∧ 0 < p.volume ∧
    (p.type = "buy" ∨ p.type = "sell")

/-- The dict returned by the /trade/open handler (main.py lines 171-179). -/
structure TradeResponse where
  trade_id : Int
  ticket_id : String
  symbol : String
  volume : Rat
  type : String
  open_price : Rat
  status : String
deriving DecidableEq, Repr

/-- How an open_trade invocation can fail: 404 when the account query finds
nothing, 502 wrapping an MT5EngineError, or — for a persistence failure, which
the handler does not catch — the raw database exception propagating. -/
inductive APIError where
  | accountNotFound : APIError
  | upstream (e : MT5Error) : APIError
  | dbFailure (e : DBError) : APIError
deriving DecidableEq, Repr

/-- The /trade/open handler (main.py lines 138-179): look the account up by id
and owner, call send_market_order with the comment tag, map MT5EngineError to
a 502, then persist a Trade built from the caller payload (symbol uppercased
but not trimmed, caller volume) and the venue price, and return its fields.
A persistence failure is not caught and propagates as dbFailure. -/
def open_trade (w : MT5World) (accounts : List AccountRow) (dbUp : Bool)
    (db : DB) (user_id : Int) (p : OpenTradeRequest) :
    Except APIError TradeResponse × DB × List MT5Event :=
  match accounts.find? (fun a => a.id = p.account_id && a.user_id = user_id) with
  | none => (.error .accountNotFound, db, [])
  | some account =>
    match send_market_order w p.symbol p.volume p.type
        ("user=" ++ toString user_id ++ ";account=" ++ toString account.id) with
    | (.error e, ev) => (.error (.upstream e), db, ev)
    | (.ok mt5_result, ev) =>
      match db.insertTrade dbUp account.id (toString mt5_result.ticket)
          (pyUpper p.symbol) p.volume p.type mt5_result.price "open" with
      | .error de => (.error (.dbFailure de), db, ev)
      | .ok (db', trade) =>
        (.ok { trade_id := trade.id, ticket_id := trade.ticket_id,
               symbol := trade.symbol, volume := trade.volume,
               type := trade.type, open_price := trade.open_price,
               status := trade.status }, db', ev)

/-! Concrete fixtures used by witnesses and counterexamples. -/

/-- A sample venue tick. -/
def tick0 : Tick := { bid := 1, ask := 2, time := 5 }

/-- A confirmed ("done") acknowledgement with a given order id and volume. -/
def ackOf (order : Int) (volume : Rat) : OrderAck :=
  { retcode := TRADE_RETCODE_DONE, order := order, deal := 999, price := 2,
    volume := volume, comment := "ok" }

/-- A healthy venue world answering every request with the given ack. -/
def wOf (ack : OrderAck) : MT5World :=
  { available := true, initOk := true, lastErrCode := 0, lastErrMsg := "",
    selectOk := fun _ => true, tick := fun _ => some tick0,
    orderResult := fun _ => some ack }

/-- A world whose mt5.initialize reports failure. -/
def wInitFail : MT5World :=
  { wOf (ackOf 555 1) with initOk := false, lastErrCode := 7, lastErrMsg := "fail" }

/-- A requote acknowledgement (retcode 10004 is TRADE_RETCODE_REQUOTE). -/
def ackRequote : OrderAck :=
  { retcode := 10004, order := 0, deal := 0, price := 0, volume := 0,
    comment := "requote" }

/-- A world whose order_send answers with a requote rejection. -/
def wRequote : MT5World :=
  { wOf ackRequote with lastErrCode := 3, lastErrMsg := "req" }

/-- An empty trades table. -/
def db0 : DB := { trades := [], nextId := 1 }

/-- One account, id 1, owned by user 1. -/
def accts0 : List AccountRow := [{ id := 1, user_id := 1 }]

/-- A well-formed open-trade payload. -/
def p0 : OpenTradeRequest :=
  { account_id := 1, symbol := "AB", volume := 1, type := "buy" }

/-- A payload whose symbol carries surrounding whitespace. -/
def pWs : OpenTradeRequest :=
  { account_id := 1, symbol := " ab ", volume := 1, type := "buy" }

/-- An environment with every credential variable set. -/
def envFull : Env :=
  { mt5Login := some "u", mt5Password := some "p", mt5Server := some "srv" }

/-- An environment with every credential variable unset. -/
def envEmpty : Env :=
  { mt5Login := none, mt5Password := none, mt5Server := none }

/-- The fresh class state of MT5Engine at process start. -/
def cs0 : ClassState := { instCount := 0, inst := none }

/-! Helper lemmas shared by several claims. -/

/-- When the package is importable and mt5 initialization succeeds, connect
returns successfully having performed exactly the initialization call. -/
theorem connect_ok (w : MT5World) (ha : w.available = true) (hi : w.initOk = true) :
    connect w = (.ok (), [.initCall]) := by
  simp [connect, ha, hi]

/-- C2 counterexample: with a healthy venue, submitting an order whose side is
"hold" does raise the validation error, but the trace shows the connect
(mt5.initialize) remote call was already made before validation — refuting
"no connect ... reaches the venue". -/
theorem C2_counterexample_connect_before_validation :
    (send_market_order (wOf (ackOf 555 1)) "AB" 1 "hold" "c").1 =
      .error .invalidOrderType ∧
    MT5Event.initCall ∈ (send_market_order (wOf (ackOf 555 1)) "AB" 1 "hold" "c").2 := by
  decide

/-- C2 (amended): for every order submission whose side does not normalize to
buy or sell, send_market_order raises the validation error before any symbol
select, tick fetch or order send — but after the connect call, which it shuts
down again: the trace is exactly [initCall, shutdownCall]. -/
theorem C2_invalid_side_error_after_connect_only (w : MT5World) (s : String)
    (v : Rat) (ot c : String) (ha : w.available = true) (hi : w.initOk = true)
    (hot : ¬(pyStrip (pyLower ot) = "buy" ∨ pyStrip (pyLower ot) = "sell")) :
    send_market_order w s v ot c =
      (.error .invalidOrderType, [.initCall, .shutdownCall]) := by
  rcases not_or.mp hot with ⟨h1, h2⟩
  unfold send_market_order
  rw [connect_ok w ha hi]
  dsimp only
  simp [h1, h2]

/-- C2 witness: the amended theorem applied at side "hold" on a healthy venue. -/
theorem C2_invalid_side_witness :
    send_market_order (wOf (ackOf 555 1)) "AB" 1 "hold" "c" =
      (.error .invalidOrderType, [.initCall, .shutdownCall]) :=
  C2_invalid_side_error_after_connect_only (wOf (ackOf 555 1)) "AB" 1 "hold" "c"
    rfl rfl (by decide)

/-- C3 counterexample: when mt5.initialize reports failure, both get_price and
send_market_order propagate the session error with a trace that contains no
shutdown call — refuting "disconnect is invoked on every exit path, including
failure of the connect/initialize step itself". -/
theorem C3_counterexample_connect_failure_no_shutdown :
    (get_price wInitFail "AB").1 = .error (.initFailed 7 "fail") ∧
    MT5Event.shutdownCall ∉ (get_price wInitFail "AB").2 ∧
    MT5Event.shutdownCall ∉ (send_market_order wInitFail "AB" 1 "buy" "c").2 := by
  decide

/-- C3 (amended): whenever the connect step itself succeeds, every exit path of
get_price and of send_market_order — success and every failure — performs the
shutdown (disconnect) call before the result or error is propagated. When the
connect step fails, no shutdown is performed. -/
theorem C3_shutdown_on_every_exit_after_connect (w : MT5World) (s : String)
    (v : Rat) (ot c : String) (ha : w.available = true) (hi : w.initOk = true) :
    MT5Event.shutdownCall ∈ (get_price w s).2 ∧
    MT5Event.shutdownCall ∈ (send_market_order w s v ot c).2 := by
  constructor
  · unfold get_price
    rw [connect_ok w ha hi]
    split
    · simp_all
    · dsimp only
      repeat' split
      all_goals simp_all
  · unfold send_market_order
    rw [connect_ok w ha hi]
    split
    · simp_all
    · dsimp only
      repeat' split
      all_goals simp_all

/-- C3 witness: the amended theorem applied on a healthy venue. -/
theorem C3_shutdown_witness :
    MT5Event.shutdownCall ∈ (get_price (wOf (ackOf 555 1)) "AB").2 ∧
    MT5Event.shutdownCall ∈ (send_market_order (wOf (ackOf 555 1)) "AB" 1 "buy" "c").2 :=
  C3_shutdown_on_every_exit_after_connect (wOf (ackOf 555 1)) "AB" 1 "buy" "c" rfl rfl

/-- C5: for every valid order submission reaching the venue, the price field of
the market-order request submitted via order_send equals the ask leg of the
tick fetched immediately before submission when the side is buy, and the bid
leg when it is sell (along with the other request fields of the source). -/
theorem C5_execution_price (w : MT5World) (s : String) (v : Rat) (ot c : String)
    (t : Tick) (ha : w.available = true) (hi : w.initOk = true)
    (hot : pyStrip (pyLower ot) = "buy" ∨ pyStrip (pyLower ot) = "sell")
    (hsel : w.selectOk (pyStrip (pyUpper s)) = true)
    (htick : w.tick (pyStrip (pyUpper s)) = some t) :
    (send_market_order w s v ot c).2 =
      [.initCall, .selectCall (pyStrip (pyUpper s)), .tickCall (pyStrip (pyUpper s)),
       .orderSendCall
         { action := TRADE_ACTION_DEAL, symbol := pyStrip (pyUpper s), volume := v,
           type := if pyStrip (pyLower ot) = "buy" then ORDER_TYPE_BUY else ORDER_TYPE_SELL,
           price := if pyStrip (pyLower ot) = "buy" then t.ask else t.bid,
           deviation := 20, magic := 202601, comment := c,
           type_time := ORDER_TIME_GTC, type_filling := ORDER_FILLING_IOC },
       .shutdownCall] := by
  unfold send_market_order
  rw [connect_ok w ha hi]
  dsimp only
  rcases hot with h | h
  · simp [h, hsel, htick]
    cases hq : w.orderResult
        { action := TRADE_ACTION_DEAL, symbol := pyStrip (pyUpper s), volume := v,
          type := ORDER_TYPE_BUY, price := t.ask, deviation := 20, magic := 202601,
          comment := c, type_time := ORDER_TIME_GTC, type_filling := ORDER_FILLING_IOC } with
    | none => simp [hq]
    | some r => simp only [hq]; split <;> simp
  · by_cases hb : pyStrip (pyLower ot) = "buy"
    · rw [hb] at h; exact absurd h (by decide)
    · simp [h, hb, hsel, htick]
      cases hq : w.orderResult
          { action := TRADE_ACTION_DEAL, symbol := pyStrip (pyUpper s), volume := v,
            type := ORDER_TYPE_SELL, price := t.bid, deviation := 20, magic := 202601,
            comment := c, type_time := ORDER_TIME_GTC, type_filling := ORDER_FILLING_IOC } with
      | none => simp [hq]
      | some r => simp only [hq]; split <;> simp

/-- C5 witness: a concrete buy order on a healthy venue submits at the ask. -/
theorem C5_execution_price_witness :
    (send_market_order (wOf (ackOf 555 1)) "AB" 1 "buy" "c").2 =
      [.initCall, .selectCall (pyStrip (pyUpper "AB")), .tickCall (pyStrip (pyUpper "AB")),
       .orderSendCall
         { action := TRADE_ACTION_DEAL, symbol := pyStrip (pyUpper "AB"), volume := 1,
           type := if pyStrip (pyLower "buy") = "buy" then ORDER_TYPE_BUY else ORDER_TYPE_SELL,
           price := if pyStrip (pyLower "buy") = "buy" then tick0.ask else tick0.bid,
           deviation := 20, magic := 202601, comment := "c",
           type_time := ORDER_TIME_GTC, type_filling := ORDER_FILLING_IOC },
       .shutdownCall] :=
  C5_execution_price (wOf (ackOf 555 1)) "AB" 1 "buy" "c" tick0 rfl rfl
    (Or.inl (by decide)) rfl rfl

/-- Characterization of a confirmed submission: with a venue answering every
order with a "done" acknowledgement r, send_market_order succeeds and returns
the response built from r and the normalized symbol and side. -/
theorem send_market_order_done (w : MT5World) (s : String) (v : Rat) (ot c : String)
    (t : Tick) (r : OrderAck)
    (ha : w.available = true) (hi : w.initOk = true)
    (hot : pyStrip (pyLower ot) = "buy" ∨ pyStrip (pyLower ot) = "sell")
    (hsel : w.selectOk (pyStrip (pyUpper s)) = true)
    (htick : w.tick (pyStrip (pyUpper s)) = some t)
    (hord : ∀ q, w.orderResult q = some r)
    (hrc : r.retcode = TRADE_RETCODE_DONE) :
    (send_market_order w s v ot c).1 =
      .ok { ticket := r.order, deal := r.deal, retcode := r.retcode,
            price := r.price, volume := r.volume, symbol := pyStrip (pyUpper s),
            type := pyStrip (pyLower ot) } := by
  unfold send_market_order
  rw [connect_ok w ha hi]
  dsimp only
  rcases hot with h | h
  · simp [h, hsel, htick, hord, hrc]
  · by_cases hb : pyStrip (pyLower ot) = "buy"
    · rw [hb] at h; exact absurd h (by decide)
    · simp [h, hb, hsel, htick, hord, hrc]

/-- Characterization of a rejected submission: with a venue answering every
order with a non-"done" acknowledgement r, send_market_order fails with the
rejection error carrying the retcode, the venue comment, and the last-error
code and message. -/
theorem send_market_order_rejected (w : MT5World) (s : String) (v : Rat) (ot c : String)
    (t : Tick) (r : OrderAck)
    (ha : w.available = true) (hi : w.initOk = true)
    (hot : pyStrip (pyLower ot) = "buy" ∨ pyStrip (pyLower ot) = "sell")
    (hsel : w.selectOk (pyStrip (pyUpper s)) = true)
    (htick : w.tick (pyStrip (pyUpper s)) = some t)
    (hord : ∀ q, w.orderResult q = some r)
    (hrc : r.retcode ≠ TRADE_RETCODE_DONE) :
    (send_market_order w s v ot c).1 =
      .error (.orderRejected r.retcode r.comment w.lastErrCode w.lastErrMsg) := by
  unfold send_market_order
  rw [connect_ok w ha hi]
  dsimp only
  rcases hot with h | h
  · simp [h, hsel, htick, hord, hrc]
  · by_cases hb : pyStrip (pyLower ot) = "buy"
    · rw [hb] at h; exact absurd h (by decide)
    · simp [h, hb, hsel, htick, hord, hrc]

/-- C4: when the venue acknowledgement's status code is anything other than
the canonical "done" code, open_trade propagates the order-rejection error —
carrying the status code, venue comment, and last-error detail — and the
trades table is left unchanged: no Trade is persisted for that submission. -/
theorem C4_rejected_error_and_no_trade (w : MT5World) (accounts : List AccountRow)
    (dbUp : Bool) (db : DB) (uid : Int) (p : OpenTradeRequest) (a : AccountRow)
    (t : Tick) (r : OrderAck)
    (ha : w.available = true) (hi : w.initOk = true)
    (hty : p.type = "buy" ∨ p.type = "sell")
    (hsel : ∀ sym, w.selectOk sym = true)
    (htick : ∀ sym, w.tick sym = some t)
    (hord : ∀ q, w.orderResult q = some r)
    (hrc : r.retcode ≠ TRADE_RETCODE_DONE)
    (hacct : accounts.find? (fun x => x.id = p.account_id && x.user_id = uid) = some a) :
    (open_trade w accounts dbUp db uid p).1 =
      .error (.upstream (.orderRejected r.retcode r.comment w.lastErrCode w.lastErrMsg)) ∧
    (open_trade w accounts dbUp db uid p).2.1 = db := by
  have hot : pyStrip (pyLower p.type) = "buy" ∨ pyStrip (pyLower p.type) = "sell" := by
    rcases hty with h | h <;> rw [h]
    · exact Or.inl (by decide)
    · exact Or.inr (by decide)
  have hrej := send_market_order_rejected w p.symbol p.volume p.type
    ("user=" ++ toString uid ++ ";account=" ++ toString a.id) t r ha hi hot
    (hsel _) (htick _) hord hrc
  unfold open_trade
  rw [hacct]
  dsimp only
  cases hsm : send_market_order w p.symbol p.volume p.type
      ("user=" ++ toString uid ++ ";account=" ++ toString a.id) with
  | mk res ev =>
    rw [hsm] at hrej
    simp only at hrej
    subst hrej
    simp

/-- C4 witness: a requote acknowledgement on a concrete venue yields the
rejection error and leaves the empty trades table empty. -/
theorem C4_rejected_witness :
    (open_trade wRequote accts0 true db0 1 p0).1 =
      .error (.upstream (.orderRejected ackRequote.retcode ackRequote.comment
        wRequote.lastErrCode wRequote.lastErrMsg)) ∧
    (open_trade wRequote accts0 true db0 1 p0).2.1 = db0 :=
  C4_rejected_error_and_no_trade wRequote accts0 true db0 1 p0 ⟨1, 1⟩ tick0 ackRequote
    rfl rfl (Or.inl rfl) (fun _ => rfl) (fun _ => rfl) (fun _ => rfl)
    (by decide) (by decide)

/-- C1 counterexample: two runs in which the venue confirms the order "done"
(with different remote order ids 555 and 777) and persistence then fails both
propagate the very same raw database error value: the error carries no remote
order id and is the undifferentiated persistence exception itself, not a
distinct reconciliation error. -/
theorem C1_counterexample_raw_db_error :
    (ackOf 555 1).retcode = TRADE_RETCODE_DONE ∧
    (ackOf 777 1).retcode = TRADE_RETCODE_DONE ∧
    (ackOf 555 1).order ≠ (ackOf 777 1).order ∧
    (open_trade (wOf (ackOf 555 1)) accts0 false db0 1 p0).1 =
      .error (.dbFailure .unavailable) ∧
    (open_trade (wOf (ackOf 777 1)) accts0 false db0 1 p0).1 =
      .error (.dbFailure .unavailable) := by
  decide

/-- C1 (amended): when the remote order submission succeeds but the subsequent
persistence of the Trade fails, open_trade propagates the persistence error
itself, undifferentiated — no distinct reconciliation error exists, nothing
carries the remote order id — and the trades table is unchanged. -/
theorem C1_persistence_failure_propagates_raw (w : MT5World)
    (accounts : List AccountRow) (dbUp : Bool) (db : DB) (uid : Int)
    (p : OpenTradeRequest) (a : AccountRow) (mres : MT5Response) (de : DBError)
    (hacct : accounts.find? (fun x => x.id = p.account_id && x.user_id = uid) = some a)
    (hsend : (send_market_order w p.symbol p.volume p.type
      ("user=" ++ toString uid ++ ";account=" ++ toString a.id)).1 = .ok mres)
    (hins : db.insertTrade dbUp a.id (toString mres.ticket) (pyUpper p.symbol)
      p.volume p.type mres.price "open" = .error de) :
    (open_trade w accounts dbUp db uid p).1 = .error (.dbFailure de) ∧
    (open_trade w accounts dbUp db uid p).2.1 = db := by
  unfold open_trade
  rw [hacct]
  dsimp only
  cases hsm : send_market_order w p.symbol p.volume p.type
      ("user=" ++ toString uid ++ ";account=" ++ toString a.id) with
  | mk res ev =>
    rw [hsm] at hsend
    simp only at hsend
    subst hsend
    simp [hins]

/-- C1 witness: the amended theorem at a confirmed order 555 with the
persistence layer down. -/
theorem C1_persistence_failure_witness :
    (open_trade (wOf (ackOf 555 1)) accts0 false db0 1 p0).1 =
      .error (.dbFailure .unavailable) ∧
    (open_trade (wOf (ackOf 555 1)) accts0 false db0 1 p0).2.1 = db0 :=
  C1_persistence_failure_propagates_raw (wOf (ackOf 555 1)) accts0 false db0 1 p0
    ⟨1, 1⟩
    { ticket := 555, deal := 999, retcode := TRADE_RETCODE_DONE, price := 2,
      volume := 1, symbol := "AB", type := "buy" } .unavailable
    (by decide) (by decide) (by decide)

/-- Specification of a successful trade insert: it preserves uniqueness of
ticket ids, appends exactly the one new row, and that row carries the
requested ticket_id. -/
theorem insertTrade_ok_spec (db : DB) (dbUp : Bool) (aid : Int) (tid sym : String)
    (v : Rat) (ty : String) (op : Rat) (st : String) (db' : DB) (row : TradeRow)
    (h : db.insertTrade dbUp aid tid sym v ty op st = .ok (db', row)) :
    (db.uniqueTickets → db'.uniqueTickets) ∧
    db'.trades = db.trades ++ [row] ∧ row.ticket_id = tid := by
  unfold DB.insertTrade at h
  split at h
  · exact absurd h (by simp)
  · split at h
    · exact absurd h (by simp)
    · rename_i hup hdup
      injection h with h
      injection h with h1 h2
      subst h1
      subst h2
      refine ⟨fun hu => ?_, by simp, rfl⟩
      unfold DB.uniqueTickets at hu ⊢
      dsimp only
      rw [List.pairwise_append]
      refine ⟨hu, by simp, ?_⟩
      intro x hx y hy
      simp only [List.mem_singleton] at hy
      subst hy
      dsimp only
      intro hcontra
      apply hdup
      rw [List.any_eq_true]
      exact ⟨x, hx, by simp [hcontra]⟩

/-- Whenever send_market_order succeeds against a venue answering every order
with acknowledgement r, the returned response carries the remote order id,
price and volume of r, and the normalized symbol. -/
theorem send_market_order_ok_fields (w : MT5World) (s : String) (v : Rat)
    (ot c : String) (r : OrderAck) (mres : MT5Response)
    (hord : ∀ q, w.orderResult q = some r)
    (h : (send_market_order w s v ot c).1 = .ok mres) :
    mres.ticket = r.order ∧ mres.price = r.price ∧ mres.volume = r.volume ∧
    mres.symbol = pyStrip (pyUpper s) := by
  unfold send_market_order at h
  split at h
  · exact absurd h (by simp)
  · dsimp only at h
    split at h
    · exact absurd h (by simp)
    · split at h
      · exact absurd h (by simp)
      · split at h
        · exact absurd h (by simp)
        · rw [hord] at h
          split at h
          · exact absurd h (by simp)
          · rename_i r2 heq
            injection heq with heq
            subst heq
            split at h
            · exact absurd h (by simp)
            · dsimp only at h
              simp only [Except.ok.injEq] at h
              subst h
              exact ⟨rfl, rfl, rfl, rfl⟩

/-- C6: open_trade preserves uniqueness of trade external identifiers
(ticket_id) in all cases, and on every successful submission the response and
the single newly persisted Trade row both carry exactly the string form of the
remote order identifier from the venue acknowledgement. -/
theorem C6_ticket_id_unique :
    (∀ (w : MT5World) (accounts : List AccountRow) (dbUp : Bool) (db : DB)
       (uid : Int) (p : OpenTradeRequest), db.uniqueTickets →
       (open_trade w accounts dbUp db uid p).2.1.uniqueTickets) ∧
    (∀ (w : MT5World) (accounts : List AccountRow) (dbUp : Bool) (db : DB)
       (uid : Int) (p : OpenTradeRequest) (r : OrderAck) (resp : TradeResponse),
       (∀ q, w.orderResult q = some r) →
       (open_trade w accounts dbUp db uid p).1 = .ok resp →
       resp.ticket_id = toString r.order ∧
       ∃ row, (open_trade w accounts dbUp db uid p).2.1.trades = db.trades ++ [row] ∧
         row.ticket_id = toString r.order) := by
  constructor
  · intro w accounts dbUp db uid p hu
    unfold open_trade
    cases hacct : accounts.find? (fun x => x.id = p.account_id && x.user_id = uid) with
    | none => simpa using hu
    | some a =>
      dsimp only
      cases hsm : send_market_order w p.symbol p.volume p.type
          ("user=" ++ toString uid ++ ";account=" ++ toString a.id) with
      | mk res ev =>
        cases res with
        | error e => simpa using hu
        | ok mres =>
          dsimp only
          cases hins : db.insertTrade dbUp a.id (toString mres.ticket)
              (pyUpper p.symbol) p.volume p.type mres.price "open" with
          | error de => simpa using hu
          | ok pr =>
            obtain ⟨db', row⟩ := pr
            dsimp only
            exact (insertTrade_ok_spec db dbUp a.id (toString mres.ticket)
              (pyUpper p.symbol) p.volume p.type mres.price "open" db' row hins).1 hu
  · intro w accounts dbUp db uid p r resp hord hok
    unfold open_trade at hok ⊢
    cases hacct : accounts.find? (fun x => x.id = p.account_id && x.user_id = uid) with
    | none => rw [hacct] at hok; simp at hok
    | some a =>
      rw [hacct] at hok
      dsimp only at hok ⊢
      cases hsm : send_market_order w p.symbol p.volume p.type
          ("user=" ++ toString uid ++ ";account=" ++ toString a.id) with
      | mk res ev =>
        rw [hsm] at hok
        have hok1 : (send_market_order w p.symbol p.volume p.type
            ("user=" ++ toString uid ++ ";account=" ++ toString a.id)).1 = res := by
          rw [hsm]
        cases res with
        | error e => simp at hok
        | ok mres =>
          dsimp only at hok ⊢
          cases hins : db.insertTrade dbUp a.id (toString mres.ticket)
              (pyUpper p.symbol) p.volume p.type mres.price "open" with
          | error de => rw [hins] at hok; simp at hok
          | ok pr =>
            obtain ⟨db', row⟩ := pr
            rw [hins] at hok
            dsimp only at hok
            simp only [Except.ok.injEq] at hok
            subst hok
            obtain ⟨hshape, hrow⟩ :=
              (insertTrade_ok_spec db dbUp a.id (toString mres.ticket)
                (pyUpper p.symbol) p.volume p.type mres.price "open" db' row hins).2
            obtain ⟨hticket, _, _, _⟩ :=
              send_market_order_ok_fields w p.symbol p.volume p.type
                ("user=" ++ toString uid ++ ";account=" ++ toString a.id) r mres hord hok1
            refine ⟨by rw [hrow, hticket], row, ?_, by rw [hrow, hticket]⟩
            dsimp only
            exact hshape

/-- C6 witness: the theorem applied on a healthy venue confirming order 555
against an empty ledger. -/
theorem C6_ticket_id_unique_witness :
    DB.uniqueTickets (open_trade (wOf (ackOf 555 1)) accts0 true db0 1 p0).2.1 ∧
    (({ trade_id := 1, ticket_id := "555", symbol := "AB", volume := 1,
        type := "buy", open_price := 2, status := "open" } : TradeResponse).ticket_id =
       toString (ackOf 555 1).order ∧
     ∃ row, (open_trade (wOf (ackOf 555 1)) accts0 true db0 1 p0).2.1.trades =
         db0.trades ++ [row] ∧ row.ticket_id = toString (ackOf 555 1).order) :=
  ⟨C6_ticket_id_unique.1 (wOf (ackOf 555 1)) accts0 true db0 1 p0 List.Pairwise.nil,
   C6_ticket_id_unique.2 (wOf (ackOf 555 1)) accts0 true db0 1 p0 (ackOf 555 1)
     { trade_id := 1, ticket_id := "555", symbol := "AB", volume := 1,
       type := "buy", open_price := 2, status := "open" }
     (fun _ => rfl) (by decide)⟩

/-- C7: if any credential variable is unset or blank, constructing the engine
fails with the missing-credentials configuration error, and the class slot
never holds a successfully initialized instance — so no engine value exists on
which a remote operation could be invoked, and the failure cannot surface at
call time. -/
theorem C7_missing_credentials_constructor (env : Env) (s : ClassState)
    (henv : env.incomplete)
    (hs : ∀ i obj, s.inst = some (i, obj) → obj.initFlag = false) :
    (MT5Engine.construct env s).2 = .error .missingCredentials ∧
    (∀ i obj, (MT5Engine.construct env s).1.inst = some (i, obj) →
      obj.initFlag = false) := by
  have henv' : pyStrip (env.mt5Login.getD "") = "" ∨
      pyStrip (env.mt5Password.getD "") = "" ∨
      pyStrip (env.mt5Server.getD "") = "" := henv
  unfold MT5Engine.construct MT5Engine.new MT5Engine.init
  cases hin : s.inst with
  | none => rcases henv' with h | h | h <;> simp [hin, h]
  | some pr =>
    obtain ⟨i, obj⟩ := pr
    have hflag := hs i obj hin
    rcases henv' with h | h | h <;> simp [hin, hflag, h]

/-- C7 witness: an environment with all three variables unset, applied to the
fresh class state. -/
theorem C7_missing_credentials_witness :
    (MT5Engine.construct envEmpty cs0).2 = .error .missingCredentials ∧
    (∀ i obj, (MT5Engine.construct envEmpty cs0).1.inst = some (i, obj) →
      obj.initFlag = false) :=
  C7_missing_credentials_constructor envEmpty cs0
    (Or.inl rfl) (by intro i obj h; simp [cs0] at h)

/-- After any successful construction the class slot holds the returned
instance, marked initialized. -/
theorem construct_ok_state (env : Env) (s : ClassState) (id : Nat)
    (h : (MT5Engine.construct env s).2 = .ok id) :
    ∃ obj, (MT5Engine.construct env s).1.inst = some (id, obj) ∧
      obj.initFlag = true := by
  unfold MT5Engine.construct MT5Engine.new MT5Engine.init at *
  cases hin : s.inst with
  | none =>
    by_cases hc : pyStrip (env.mt5Login.getD "") = "" ∨
        pyStrip (env.mt5Password.getD "") = "" ∨
        pyStrip (env.mt5Server.getD "") = ""
    · simp [hin, hc] at h
    · simp [hin, hc] at h ⊢
      exact ⟨_, ⟨h, rfl⟩, rfl⟩
  | some pr =>
    obtain ⟨i, obj⟩ := pr
    by_cases hflag : obj.initFlag = true
    · simp [hin, hflag] at h ⊢
      exact ⟨obj, ⟨h, rfl⟩, hflag⟩
    · by_cases hc : pyStrip (env.mt5Login.getD "") = "" ∨
          pyStrip (env.mt5Password.getD "") = "" ∨
          pyStrip (env.mt5Server.getD "") = ""
      · simp [hin, hflag, hc] at h
      · simp [hin, hflag, hc] at h ⊢
        exact ⟨_, ⟨h, rfl⟩, rfl⟩

/-- Constructing on a class state whose slot already holds an initialized
instance returns that same instance and leaves the state — including the
stored credentials — entirely unchanged, for any environment. -/
theorem construct_after_ok (env2 : Env) (s1 : ClassState) (id : Nat)
    (obj : EngineObj) (hinst : s1.inst = some (id, obj))
    (hflag : obj.initFlag = true) :
    MT5Engine.construct env2 s1 = (s1, .ok id) := by
  obtain ⟨cnt, inst⟩ := s1
  simp only at hinst
  subst hinst
  unfold MT5Engine.construct MT5Engine.new MT5Engine.init
  simp [hflag]

/-- C8: once a construction of the engine has succeeded, every further
construction — under any environment — returns the very same instance id and
leaves the class state, including the stored credentials, unchanged: the
constructor is a singleton and the credentials are read-only after the first
successful initialization. -/
theorem C8_singleton_and_frozen_credentials (env env2 : Env) (s : ClassState)
    (id : Nat) (h : (MT5Engine.construct env s).2 = .ok id) :
    (MT5Engine.construct env2 (MT5Engine.construct env s).1).2 = .ok id ∧
    (MT5Engine.construct env2 (MT5Engine.construct env s).1).1 =
      (MT5Engine.construct env s).1 := by
  obtain ⟨obj, hinst, hflag⟩ := construct_ok_state env s id h
  rw [construct_after_ok env2 _ id obj hinst hflag]
  exact ⟨rfl, rfl⟩

/-- C8 witness: a complete environment constructs instance 0 from the fresh
class state; reconstruction under a different environment returns the same
instance and state. -/
theorem C8_singleton_witness :
    (MT5Engine.construct envEmpty (MT5Engine.construct envFull cs0).1).2 = .ok 0 ∧
    (MT5Engine.construct envEmpty (MT5Engine.construct envFull cs0).1).1 =
      (MT5Engine.construct envFull cs0).1 :=
  C8_singleton_and_frozen_credentials envFull envEmpty cs0 0 (by decide)

/-- C9: get_price returns the TickPrice whose symbol is the uppercased,
trimmed input and whose bid, ask and time are exactly the venue tick fields,
and its trace is exactly connect, symbol select, its own tick fetch, and
shutdown — the whole result is a function of the venue state and the symbol
alone, so each invocation performs its own fresh fetch and no caching or
state mutation is possible. -/
theorem C9_get_price_fresh (w : MT5World) (s : String) (t : Tick)
    (ha : w.available = true) (hi : w.initOk = true)
    (hsel : w.selectOk (pyStrip (pyUpper s)) = true)
    (htick : w.tick (pyStrip (pyUpper s)) = some t) :
    get_price w s =
      (.ok { symbol := pyStrip (pyUpper s), bid := t.bid, ask := t.ask,
             time := t.time },
       [.initCall, .selectCall (pyStrip (pyUpper s)),
        .tickCall (pyStrip (pyUpper s)), .shutdownCall]) := by
  unfold get_price
  rw [connect_ok w ha hi]
  dsimp only
  simp [hsel, htick]

/-- C9 witness: the theorem at a concrete healthy venue. -/
theorem C9_get_price_fresh_witness :
    get_price (wOf (ackOf 555 1)) "AB" =
      (.ok { symbol := pyStrip (pyUpper "AB"), bid := tick0.bid,
             ask := tick0.ask, time := tick0.time },
       [.initCall, .selectCall (pyStrip (pyUpper "AB")),
        .tickCall (pyStrip (pyUpper "AB")), .shutdownCall]) :=
  C9_get_price_fresh (wOf (ackOf 555 1)) "AB" tick0 rfl rfl rfl rfl

/-- C10: on a successful submission the engine result carries the executed
price and volume of the venue acknowledgement and the uppercased-and-trimmed
symbol, while the persisted Trade row records the caller-requested volume, the
uppercased-but-not-trimmed input symbol, and the venue price — so the
persisted volume can differ from the executed volume, and the persisted
symbol can differ from the symbol sent to the venue whenever the input has
surrounding whitespace. -/
theorem C10_persisted_vs_executed (w : MT5World) (accounts : List AccountRow)
    (db : DB) (uid : Int) (p : OpenTradeRequest) (a : AccountRow) (t : Tick)
    (r : OrderAck)
    (ha : w.available = true) (hi : w.initOk = true)
    (hty : p.type = "buy" ∨ p.type = "sell")
    (hsel : ∀ sym, w.selectOk sym = true)
    (htick : ∀ sym, w.tick sym = some t)
    (hord : ∀ q, w.orderResult q = some r)
    (hrc : r.retcode = TRADE_RETCODE_DONE)
    (hacct : accounts.find? (fun x => x.id = p.account_id && x.user_id = uid) = some a)
    (hfresh : db.trades.any (fun tr => tr.ticket_id = toString r.order) = false) :
    (send_market_order w p.symbol p.volume p.type
        ("user=" ++ toString uid ++ ";account=" ++ toString a.id)).1 =
      .ok { ticket := r.order, deal := r.deal, retcode := r.retcode,
            price := r.price, volume := r.volume,
            symbol := pyStrip (pyUpper p.symbol),
            type := pyStrip (pyLower p.type) } ∧
    (open_trade w accounts true db uid p).2.1.trades =
      db.trades ++
        [{ id := db.nextId, account_id := a.id, ticket_id := toString r.order,
           symbol := pyUpper p.symbol, volume := p.volume, type := p.type,
           open_price := r.price, status := "open" }] := by
  have hot : pyStrip (pyLower p.type) = "buy" ∨ pyStrip (pyLower p.type) = "sell" := by
    rcases hty with h | h <;> rw [h]
    · exact Or.inl (by decide)
    · exact Or.inr (by decide)
  have hsend := send_market_order_done w p.symbol p.volume p.type
    ("user=" ++ toString uid ++ ";account=" ++ toString a.id) t r ha hi hot
    (hsel _) (htick _) hord hrc
  refine ⟨hsend, ?_⟩
  unfold open_trade
  rw [hacct]
  dsimp only
  cases hsm : send_market_order w p.symbol p.volume p.type
      ("user=" ++ toString uid ++ ";account=" ++ toString a.id) with
  | mk res ev =>
    rw [hsm] at hsend
    simp only at hsend
    subst hsend
    dsimp only
    simp [DB.insertTrade, hfresh]

/-- C10 witness: input symbol " ab " and caller volume 1, venue executing
volume 2 — the engine result carries symbol "AB" and volume 2, while the
persisted row carries symbol " AB " and volume 1. -/
theorem C10_persisted_vs_executed_witness :
    (send_market_order (wOf (ackOf 555 2)) pWs.symbol pWs.volume pWs.type
        ("user=" ++ toString (1 : Int) ++ ";account=" ++ toString (1 : Int))).1 =
      .ok { ticket := (ackOf 555 2).order, deal := (ackOf 555 2).deal,
            retcode := (ackOf 555 2).retcode, price := (ackOf 555 2).price,
            volume := (ackOf 555 2).volume,
            symbol := pyStrip (pyUpper pWs.symbol),
            type := pyStrip (pyLower pWs.type) } ∧
    (open_trade (wOf (ackOf 555 2)) accts0 true db0 1 pWs).2.1.trades =
      db0.trades ++
        [{ id := db0.nextId, account_id := (1 : Int),
           ticket_id := toString (ackOf 555 2).order, symbol := pyUpper pWs.symbol,
           volume := pWs.volume, type := pWs.type,
           open_price := (ackOf 555 2).price, status := "open" }] :=
  C10_persisted_vs_executed (wOf (ackOf 555 2)) accts0 db0 1 pWs ⟨1, 1⟩ tick0
    (ackOf 555 2) rfl rfl (Or.inl rfl) (fun _ => rfl) (fun _ => rfl) (fun _ => rfl)
    rfl (by decide) rfl
